import Mathlib

/-!
# Verification of the recipe RAG pipeline (`chatbot/rag.py`)

This file gives a shallow embedding of the RAG (retrieval-augmented
generation) service of the recipe chatbot and proves the specified
properties of it.

Modelling conventions:
* Python exceptions are modelled with `Except Err`; a `try/except` becomes a
  `match` on the `Except` value.
* External collaborators (the ChromaDB client, the OpenAI and Gemini API
  clients, the Django ORM corpus) are modelled as fields of an environment
  record.  Each network/API call is a function of the environment returning
  `Except Err _`, so that the call can either raise or return a value of the
  shape the Python code inspects.
* Machine floats `0.9 / 0.6 / 0.5` (the confidence table) are modelled as
  exact rationals; the Python literals are exact binary-independent table
  entries compared only for identity, never computed with.
* Django querysets are modelled as Lean lists in corpus order.
-/

set_option maxRecDepth 4000

namespace RecipeRag

/-- Errors carried by a raised Python exception (the message text). -/
abbrev Err := String

/-- One row of the `Recipe` model, restricted to the fields the RAG code
reads (`recipes/models.py`).  `ingredients` is the ordered list of
`(quantity, ingredient-name)` pairs from `recipe_ingredients`; `category`
is the category name when `category_id` is set. -/
structure Recipe where
  pk : Nat
  title : String
  description : String
  difficulty : String
  prep_time : Nat
  cook_time : Nat
  servings : Nat
  instructions : String
  ingredients : List (String × String)
  category : Option String
  deriving DecidableEq, Repr

/-- `_get_recipe_document` (rag.py lines 16-34): flatten one recipe into a
single searchable text document. -/
def _get_recipe_document (r : Recipe) : String :=
  let parts : List String :=
    [ "Title: " ++ r.title,
      "Description: " ++ r.description,
      "Difficulty: " ++ r.difficulty,
      "Prep time: " ++ toString r.prep_time ++ " minutes. Cook time: "
        ++ toString r.cook_time ++ " minutes.",
      "Servings: " ++ toString r.servings,
      "Instructions: " ++ r.instructions ]
  let ing_parts : List String := r.ingredients.map (fun p => p.1 ++ " " ++ p.2)
  let parts := if ing_parts.isEmpty then parts
    else parts ++ ["Ingredients: " ++ String.intercalate ", " ing_parts]
  let parts := match r.category with
    | some c => parts ++ ["Category: " ++ c]
    | none => parts
  String.intercalate "\n" parts

/-! ## String primitives

Python's `str.strip`, `str.split()`, slicing and `str.lower` are modelled by
structurally recursive functions over the character list of the string. -/

/-- Python `s.strip()`: remove leading and trailing whitespace. -/
def pyStrip (s : String) : String :=
  String.mk (((s.data.dropWhile Char.isWhitespace).reverse.dropWhile
    Char.isWhitespace).reverse)

/-- Worker for `pySplitWs`: `acc` holds the current token reversed. -/
def splitWsGo : List Char → List Char → List String
  | [], acc => if acc.isEmpty then [] else [String.mk acc.reverse]
  | c :: rest, acc =>
    if c.isWhitespace then
      if acc.isEmpty then splitWsGo rest []
      else String.mk acc.reverse :: splitWsGo rest []
    else splitWsGo rest (c :: acc)

/-- Python `s.split()` with no argument: maximal runs of non-whitespace
characters, in order; whitespace runs separate tokens and produce no empty
tokens. -/
def pySplitWs (s : String) : List String :=
  splitWsGo s.data []

/-- Python `s[:n]`: the first `n` characters of `s`. -/
def pySlice (s : String) (n : Nat) : String :=
  String.mk (s.data.take n)

/-- Python `s.lower()` (ASCII case folding, as `__icontains` compares). -/
def pyLower (s : String) : List Char :=
  s.data.map Char.toLower

/-! ## Fallback keyword search (rag.py lines 294-330) -/

/-- Substring containment on character lists (Python's `needle in hay`):
true iff `needle` is a prefix of some suffix of `hay`. -/
def charsContain (hay needle : List Char) : Bool :=
  needle.isPrefixOf hay ||
    match hay with
    | [] => false
    | _ :: t => charsContain t needle

/-- Case-insensitive containment, modelling Django's `__icontains`. -/
def icontains (hay needle : String) : Bool :=
  charsContain (pyLower hay) (pyLower needle)

/-- The token filter of `fallback_answer` (line 302):
`[w.strip() for w in user_message.split() if len(w.strip()) > 2][:5]`.
`str.split()` splits on whitespace runs and drops empty pieces. -/
def fallback_tokens (user_message : String) : List String :=
  ((((pySplitWs user_message).map (fun w => pyStrip w)).filter
      (fun w => 2 < w.length))).take 5

/-- Fixed instructional message returned when no token survives (line 305). -/
def fallback_prompt_msg : String :=
  "Ask me about recipes, ingredients, or cooking! For example: 'Easy Italian recipes' or 'What can I make with tomatoes?'"

/-- Fixed no-match message naming the query (line 321). -/
def fallback_no_match_msg (user_message : String) : String :=
  "I couldn't find recipes matching '" ++ user_message
    ++ "'. Try different keywords or browse all recipes on the site!"

/-- The OR-filter `Q(title__icontains=w) | Q(description__icontains=w) |
Q(instructions__icontains=w)` folded over the surviving tokens (lines 309-315). -/
def fallback_matches (words : List String) (r : Recipe) : Bool :=
  words.any (fun w =>
    icontains r.title w || icontains r.description w || icontains r.instructions w)

/-- `.distinct()` on a queryset: drop duplicate rows, keeping the first
occurrence, preserving corpus order. -/
def distinctAux (seen : List Recipe) : List Recipe → List Recipe
  | [] => []
  | r :: rest =>
    if r ∈ seen then distinctAux seen rest
    else r :: distinctAux (r :: seen) rest

/-- `fallback_answer` (rag.py lines 294-330): keyword search over the corpus,
returning `(answer_text, recipe ids used)`. -/
def fallback_answer (user_message : String) (corpus : List Recipe) :
    String × List Nat :=
  let words := fallback_tokens user_message
  if words.isEmpty then (fallback_prompt_msg, [])
  else
    let recipes := (distinctAux [] (corpus.filter (fallback_matches words))).take 5
    let recipe_ids := recipes.map Recipe.pk
    if recipes.isEmpty then (fallback_no_match_msg user_message, [])
    else
      let titles := recipes.map Recipe.title
      ("I found " ++ toString recipes.length
         ++ " recipe(s) that might match: " ++ String.intercalate ", " titles
         ++ ". Check them out on the recipes page for full details!",
       recipe_ids)

/-! ## Retrieval (rag.py lines 164-200) -/

/-- A metadata dict as stored in / returned by the Chroma collection:
`meta.get("recipe_id")` and `meta.get("title", "")` read optional keys. -/
structure DocMeta where
  recipe_id : Option Nat
  title : Option String
  deriving DecidableEq, Repr, Inhabited

/-- The provider-agnostic result row built by the retriever. -/
structure RetrievedSnippet where
  recipe_id : Nat
  title : String
  snippet : String
  deriving DecidableEq, Repr

/-- Snippet truncation (line 194):
`(doc[:300] + "...") if len(doc) > 300 else doc`. -/
def make_snippet (doc : String) : String :=
  if 300 < doc.length then pySlice doc 300 ++ "..." else doc

/-- Python `int(s)` on a decimal string: raises `ValueError` on non-numeric
input. -/
def int_of_str (s : String) : Except Err Nat :=
  match s.toNat? with
  | some v => Except.ok v
  | none => Except.error "ValueError"

/-- The shape of `collection.query(...)` results the code reads: parallel
nested lists `ids`, `metadatas`, `documents` (one inner list per query
embedding; the code sends exactly one). -/
structure QueryResults where
  ids : List (List String)
  metadatas : List (List DocMeta)
  documents : List (List String)

/-- The two Chroma collection operations the retriever and orchestrator use.
`count` models `collection.count()`, `query` models `collection.query`
(returning `none` when the result object is falsy); either can raise. -/
structure CollectionOps where
  count : Except Err Nat
  query : List Int → Nat → Except Err (Option QueryResults)

/-- `meta.get("recipe_id") or int(doc_id)` (line 196).  A stored id of `0`
is falsy in Python and falls through to `int(doc_id)`. -/
def resolve_recipe_id (meta : DocMeta) (doc_id : String) : Except Err Nat :=
  match meta.recipe_id with
  | some rid => if rid = 0 then int_of_str doc_id else Except.ok rid
  | none => int_of_str doc_id

/-- One iteration of the result loop (lines 189-199): defaulting metadata to
`{}` and document to `""` past the end. -/
def hit_to_snippet (metas0 : List DocMeta) (docs0 : List String)
    (i : Nat) (doc_id : String) : Except Err RetrievedSnippet :=
  match resolve_recipe_id (metas0.getD i default) doc_id with
  | Except.error e => Except.error e
  | Except.ok rid =>
    Except.ok { recipe_id := rid, title := (metas0.getD i default).title.getD "",
                snippet := make_snippet (docs0.getD i "") }

/-- The `for i, doc_id in enumerate(results["ids"][0])` loop, accumulating
output rows in iteration order and propagating any raise. -/
def retrieve_loop (metas0 : List DocMeta) (docs0 : List String) :
    List (Nat × String) → Except Err (List RetrievedSnippet)
  | [] => Except.ok []
  | (i, doc_id) :: rest =>
    match hit_to_snippet metas0 docs0 i doc_id with
    | Except.error e => Except.error e
    | Except.ok s =>
      match retrieve_loop metas0 docs0 rest with
      | Except.error e => Except.error e
      | Except.ok out => Except.ok (s :: out)

/-- The embedding capability: `callable(texts) -> vectors`, possibly raising. -/
abbrev EmbedFn := List String → Except Err (List (List Int))

/-- `retrieve_relevant_recipes` (rag.py lines 164-200).  Notes:
* `collection.count()` is wrapped in its own `try/except` defaulting to 0;
* `embedding_fn([query.strip()])[0]` raises `IndexError` when the embedding
  call returns an empty list;
* a falsy result object, falsy `results["ids"]` or falsy `results["ids"][0]`
  yields `[]`;
* `results["metadatas"][0]` / `results["documents"][0]` raise when those
  outer lists are empty.
The local `total = collection.count()` (with the `try/except` defaulting to
0) is split off as `collection_count_or_zero`. -/
def collection_count_or_zero (collection : CollectionOps) : Nat :=
  match collection.count with
  | Except.ok t => t
  | Except.error _ => 0

def retrieve_relevant_recipes (collection : CollectionOps) (query : String)
    (embedding_fn : EmbedFn) (n : Nat) : Except Err (List RetrievedSnippet) :=
  if pyStrip query = "" then Except.ok []
  else
    if collection_count_or_zero collection = 0 then Except.ok []
    else
      match embedding_fn [pyStrip query] with
      | Except.error e => Except.error e
      | Except.ok [] => Except.error "IndexError"
      | Except.ok (query_embedding :: _) =>
        match collection.query query_embedding
            (min n (collection_count_or_zero collection)) with
        | Except.error e => Except.error e
        | Except.ok none => Except.ok []
        | Except.ok (some results) =>
          match results.ids with
          | [] => Except.ok []
          | ids0 :: _ =>
            if ids0.isEmpty then Except.ok []
            else
              match results.metadatas, results.documents with
              | metas0 :: _, docs0 :: _ => retrieve_loop metas0 docs0 ids0.enum
              | _, _ => Except.error "IndexError"

/-! ## Provider environment and embedding builders (rag.py lines 37-57, 115-161) -/

/-- The reference to a retrieved document returned by the orchestrator
(`{"recipe_id": ..., "title": ...}`). -/
structure DocRef where
  recipe_id : Nat
  title : String
  deriving DecidableEq, Repr

/-- External collaborators of the pipeline, one record per process state:
credentials (`None` when neither env var nor setting is truthy), whether the
`google-genai` package imports, the raw API calls (each may raise), the
persisted-index directory check, the opened Chroma collection, and the
Recipe corpus in queryset order.
* `geminiEmbedContent task_type texts` models
  `client.models.embed_content(...)` followed by the read of
  `result.embeddings`: an empty list models a falsy result object or a
  missing/empty `embeddings` attribute.
* `openaiCreateEmbeddings texts` models `client.embeddings.create(...)`
  followed by `[item.embedding for item in out.data]`.
* `geminiGenerateContent` / `openaiChatCreate` model the generation calls
  including prompt construction; `none` models a falsy `response.text` /
  falsy `message.content`.
* `openIndex` models `get_chroma_collection(persist_dir, ...)` (client
  construction plus `get_or_create_collection`), which may raise. -/
structure OrchestratorEnv where
  geminiKey : Option String
  openaiKey : Option String
  geminiImportOk : Bool
  geminiEmbedContent : String → List String → Except Err (List (List Int))
  openaiCreateEmbeddings : List String → Except Err (List (List Int))
  geminiGenerateContent :
    String → List RetrievedSnippet → String → Except Err (Option String)
  openaiChatCreate :
    String → List RetrievedSnippet → String → Except Err (Option String)
  persistDirIsDir : Bool
  openIndex : Except Err CollectionOps
  corpus : List Recipe

/-- `_use_gemini` (line 55-57): Gemini is used exactly when its key is set. -/
def _use_gemini (env : OrchestratorEnv) : Bool :=
  env.geminiKey.isSome

/-- `build_openai_embedding_fn` (lines 115-130): `None` without a key,
otherwise a function passing the texts to the OpenAI embeddings endpoint. -/
def build_openai_embedding_fn (env : OrchestratorEnv) : Option EmbedFn :=
  match env.openaiKey with
  | none => none
  | some _ => some (fun texts => env.openaiCreateEmbeddings texts)

/-- `build_gemini_embedding_fn` (lines 133-161): `None` without a key or when
the `google-genai` import fails; otherwise a function calling
`embed_content` and substituting `[[]] * len(texts)` when the result object
or its `embeddings` attribute is falsy. -/
def build_gemini_embedding_fn (env : OrchestratorEnv) (task_type : String) :
    Option EmbedFn :=
  match env.geminiKey with
  | none => none
  | some _ =>
    if !env.geminiImportOk then none
    else some (fun texts =>
      match env.geminiEmbedContent task_type texts with
      | Except.error e => Except.error e
      | Except.ok vs =>
        if vs.isEmpty then Except.ok (List.replicate texts.length [])
        else Except.ok vs)

/-! ## Answer generators (rag.py lines 203-291) -/

/-- Fixed message when no OpenAI key is configured (lines 212-216). -/
def openai_no_key_msg : String :=
  "I don't have an API key configured for the AI. Add OPENAI_API_KEY to your environment to enable smart answers. You can still search recipes on the site!"

/-- Fixed message when no Gemini key is configured (lines 254-258). -/
def gemini_no_key_msg : String :=
  "I don't have a Gemini API key configured. Add GEMINI_API_KEY to your environment to enable smart answers. You can still search recipes on the site!"

/-- Fixed message when the backend returns no text (lines 245, 291). -/
def no_answer_msg : String :=
  "I couldn't generate an answer."

/-- `generate_answer_with_openai` (lines 203-245). -/
def generate_answer_with_openai (env : OrchestratorEnv) (user_message : String)
    (retrieved : List RetrievedSnippet) (base_url : String) :
    Except Err String :=
  match env.openaiKey with
  | none => Except.ok openai_no_key_msg
  | some _ =>
    match env.openaiChatCreate user_message retrieved base_url with
    | Except.error e => Except.error e
    | Except.ok none => Except.ok no_answer_msg
    | Except.ok (some t) => Except.ok t

/-- `generate_answer_with_gemini` (lines 248-291). -/
def generate_answer_with_gemini (env : OrchestratorEnv) (user_message : String)
    (retrieved : List RetrievedSnippet) (base_url : String) :
    Except Err String :=
  match env.geminiKey with
  | none => Except.ok gemini_no_key_msg
  | some _ =>
    if !env.geminiImportOk then
      Except.ok "Please install google-genai: pip install google-genai"
    else
      match env.geminiGenerateContent user_message retrieved base_url with
      | Except.error e => Except.error e
      | Except.ok none => Except.ok no_answer_msg
      | Except.ok (some t) => Except.ok t

/-! ## Orchestrator (rag.py lines 333-409) -/

/-- The structured result of `get_rag_response`. -/
structure RagResult where
  answer : String
  retrieved_docs : List DocRef
  confidence : ℚ
  deriving DecidableEq, Repr

/-- Resolving one fallback recipe id back to a title (lines 392-395,
399-402): `Recipe.objects.filter(pk=rid).values_list("title").first() or ""`. -/
def resolve_fallback_title (corpus : List Recipe) (rid : Nat) : String :=
  match corpus.find? (fun r => r.pk == rid) with
  | some r => r.title
  | none => ""

/-- The fallback arm of the orchestrator: run `fallback_answer` and resolve
the returned ids back to titles, tagging the given confidence. -/
def fallback_result (env : OrchestratorEnv) (user_message : String)
    (confidence : ℚ) : RagResult :=
  let p := fallback_answer user_message env.corpus
  { answer := p.1,
    retrieved_docs := p.2.map (fun rid =>
      { recipe_id := rid, title := resolve_fallback_title env.corpus rid }),
    confidence := confidence }

/-- Provider selection (lines 355-362): Gemini (query mode) when its key is
set, else OpenAI — the OpenAI builder is not consulted when `_use_gemini`. -/
def orchestrator_embedding_fn (env : OrchestratorEnv) : Option EmbedFn :=
  if _use_gemini env then build_gemini_embedding_fn env "RETRIEVAL_QUERY"
  else build_openai_embedding_fn env

/-- The matching generator selection (`generate_fn`, lines 355-362). -/
def orchestrator_generate (env : OrchestratorEnv) (user_message : String)
    (retrieved : List RetrievedSnippet) (base_url : String) :
    Except Err String :=
  if _use_gemini env then
    generate_answer_with_gemini env user_message retrieved base_url
  else generate_answer_with_openai env user_message retrieved base_url

/-- The retrieval call of the RAG arm (lines 376-378).  The orchestrator only
reaches it when `orchestrator_embedding_fn env` is `some`; the `none` arm is
dead code kept total. -/
def orch_retrieve (env : OrchestratorEnv) (collection : CollectionOps)
    (user_message : String) : Except Err (List RetrievedSnippet) :=
  match orchestrator_embedding_fn env with
  | none => Except.ok []
  | some ef => retrieve_relevant_recipes collection user_message ef 5

/-- Projection of a retrieved snippet to the orchestrator's doc reference
(lines 382-385). -/
def snippet_doc_ref (r : RetrievedSnippet) : DocRef :=
  { recipe_id := r.recipe_id, title := r.title }

/-- The body of the second `try` block (lines 375-389): retrieve, then
generate with confidence 0.9 on a non-empty retrieval and 0.6 on an empty
one; any raise propagates to the orchestrator's `except`. -/
def rag_attempt (env : OrchestratorEnv) (collection : CollectionOps)
    (user_message : String) (base_url : String) : Except Err RagResult :=
  match orch_retrieve env collection user_message with
  | Except.error e => Except.error e
  | Except.ok retrieved =>
    if retrieved.isEmpty then
      match orchestrator_generate env user_message [] base_url with
      | Except.error e => Except.error e
      | Except.ok answer =>
        Except.ok { answer := answer, retrieved_docs := [],
                    confidence := (6 : ℚ)/10 }
    else
      match orchestrator_generate env user_message retrieved base_url with
      | Except.error e => Except.error e
      | Except.ok answer =>
        Except.ok { answer := answer,
                    retrieved_docs := retrieved.map snippet_doc_ref,
                    confidence := (9 : ℚ)/10 }

/-- `get_rag_response` (rag.py lines 333-409).  `request` is modelled by the
base URL it would produce (`None` → `""`).  The Python's
`use_rag = bool(embedding_fn and os.path.isdir(persist_dir))` guard, the
first `try/except` around index opening/counting (lines 366-372, which on
failure only clears `use_rag`, landing in the final `else` with confidence
0.6) and the second `try/except` around retrieve+generate (confidence 0.5 on
a caught raise) are laid out as nested matches. -/
def get_rag_response (env : OrchestratorEnv) (user_message : String)
    (request : Option String) : Except Err RagResult :=
  let base_url := request.getD ""
  if (orchestrator_embedding_fn env).isSome && env.persistDirIsDir then
    match env.openIndex with
    | Except.error _ => Except.ok (fallback_result env user_message ((6 : ℚ)/10))
    | Except.ok collection =>
      match collection.count with
      | Except.error _ =>
        Except.ok (fallback_result env user_message ((6 : ℚ)/10))
      | Except.ok n =>
        if n = 0 then Except.ok (fallback_result env user_message ((6 : ℚ)/10))
        else
          match rag_attempt env collection user_message base_url with
          | Except.ok res => Except.ok res
          | Except.error _ =>
            Except.ok (fallback_result env user_message ((5 : ℚ)/10))
  else Except.ok (fallback_result env user_message ((6 : ℚ)/10))

/-! ## Batch indexing (rag.py lines 60-96)

`index_recipes_into_chroma` builds parallel `ids`, `documents`, `metadatas`
lists over the corpus, makes one batch embedding call, and hands everything
to `collection.add`.  The ChromaDB collection itself is an external library.
Its store is modelled from the spec: a mapping from id to indexed document
where `add` stores each `(id, embedding, text, metadata)` overwriting any
prior entry with the same id (`upsert_index`, spec section 4.3). -/

/-- Metadata stored at indexing time (lines 83-86): the record id and the
title truncated to 200 characters. -/
structure IndexedDocMeta where
  recipe_id : Nat
  title : String
  deriving DecidableEq, Repr

/-- One stored indexed document: embedding, flattened text, metadata. -/
structure IndexedEntry where
  embedding : List Int
  document : String
  metadata : IndexedDocMeta
  deriving DecidableEq, Repr

/-- The persistent collection contents: an association list from stringified
record id to stored entry. -/
abbrev IndexStore := List (String × IndexedEntry)

/-- The ids present in a store, in storage order. -/
def storeKeys (s : IndexStore) : List String :=
  s.map Prod.fst

/-- Modelled from the spec: one upsert of the ChromaDB collection's `add`
(the chromadb client library is not under src/) — store `(id, e)`,
"overwriting any prior entry with the same id", appending otherwise. -/
def upsert1 (store : IndexStore) (id : String) (e : IndexedEntry) :
    IndexStore :=
  if store.any (fun p => p.1 == id) then
    store.map (fun p => if p.1 == id then (id, e) else p)
  else store ++ [(id, e)]

/-- Pair up the parallel `ids`/`embeddings`/`documents`/`metadatas` lists
passed to `collection.add` into keyed entries. -/
def zipEntries (ids : List String) (embeddings : List (List Int))
    (documents : List String) (metadatas : List IndexedDocMeta) :
    List (String × IndexedEntry) :=
  ((ids.zip embeddings).zip (documents.zip metadatas)).map
    (fun x => (x.1.1,
      { embedding := x.1.2, document := x.2.1, metadata := x.2.2 }))

/-- Modelled from the spec: `collection.add(ids, embeddings, documents,
metadatas)` as a batch upsert of the keyed entries. -/
def chroma_add (store : IndexStore) (ids : List String)
    (embeddings : List (List Int)) (documents : List String)
    (metadatas : List IndexedDocMeta) : IndexStore :=
  (zipEntries ids embeddings documents metadatas).foldl
    (fun s p => upsert1 s p.1 p.2) store

/-- `index_recipes_into_chroma` (rag.py lines 60-96): empty corpus returns 0
immediately; otherwise one batch embedding call (whose raise propagates to
the caller before any write), one `collection.add`, and the corpus size as
the reported count. -/
def index_recipes_into_chroma (store : IndexStore) (embedding_fn : EmbedFn)
    (recipes : List Recipe) : Except Err (IndexStore × Nat) :=
  if recipes.isEmpty then Except.ok (store, 0)
  else
    let ids := recipes.map (fun r => toString r.pk)
    let documents := recipes.map _get_recipe_document
    let metadatas := recipes.map (fun r =>
      ({ recipe_id := r.pk, title := pySlice r.title 200 } : IndexedDocMeta))
    match embedding_fn documents with
    | Except.error e => Except.error e
    | Except.ok embeddings =>
      Except.ok (chroma_add store ids embeddings documents metadatas,
                 recipes.length)

/-! ## Concrete fixtures

Small concrete corpora, collections and environments used to instantiate the
theorems below on closed inputs. -/

/-- A sample recipe. -/
def sample_pizza : Recipe :=
  { pk := 1, title := "Margherita Pizza", description := "Classic Italian pizza",
    difficulty := "easy", prep_time := 10, cook_time := 20, servings := 2,
    instructions := "Bake at 450F", ingredients := [("2 cups", "flour")],
    category := some "Italian" }

/-- A second sample recipe with no ingredients and no category. -/
def sample_stew : Recipe :=
  { pk := 2, title := "Beef Stew", description := "Hearty dinner",
    difficulty := "medium", prep_time := 15, cook_time := 90, servings := 4,
    instructions := "Simmer slowly", ingredients := [], category := none }

/-- A collection holding one entry whose query returns the pizza document. -/
def sample_coll : CollectionOps :=
  { count := Except.ok 1,
    query := fun _ _ => Except.ok (some
      { ids := [["1"]],
        metadatas := [[{ recipe_id := some 1, title := some "Margherita Pizza" }]],
        documents := [["Margherita doc text"]] }) }

/-- A collection whose `count` and `query` both raise. -/
def sample_coll_raising : CollectionOps :=
  { count := Except.error "count raised",
    query := fun _ _ => Except.error "query raised" }

/-- An embedding function that raises when invoked; used to show a call site
is never reached. -/
def sample_ef_raising : EmbedFn :=
  fun _ => Except.error "embedding invoked"

/-- An embedding function returning one constant vector per text. -/
def sample_ef_const : EmbedFn :=
  fun texts => Except.ok (texts.map (fun _ => [1]))

/-- An embedding function that raises (models a transport failure). -/
def sample_ef_boom : EmbedFn :=
  fun _ => Except.error "boom"

/-- A fully healthy environment: Gemini key set, import fine, index present
with one entry, generation succeeding. -/
def sample_env : OrchestratorEnv :=
  { geminiKey := some "k", openaiKey := none, geminiImportOk := true,
    geminiEmbedContent := fun _ _ => Except.ok [[1, 2]],
    openaiCreateEmbeddings := fun _ => Except.error "openai consulted",
    geminiGenerateContent := fun _ _ _ => Except.ok (some "Try the Margherita Pizza!"),
    openaiChatCreate := fun _ _ _ => Except.error "openai consulted",
    persistDirIsDir := true, openIndex := Except.ok sample_coll,
    corpus := [sample_pizza, sample_stew] }

/-- `sample_env` with an index whose opening raises. -/
def sample_env_open_fails : OrchestratorEnv :=
  { sample_env with openIndex := Except.error "corrupt store" }

/-- `sample_env` with an index whose `count()` raises. -/
def sample_env_count_fails : OrchestratorEnv :=
  { sample_env with openIndex := Except.ok sample_coll_raising }

/-- `sample_env` with a raising embedding backend (exception mid-pipeline). -/
def sample_env_embed_fails : OrchestratorEnv :=
  { sample_env with geminiEmbedContent := fun _ _ => Except.error "boom" }

/-- `sample_env` with a Gemini backend returning a falsy embeddings result. -/
def sample_env_empty_embeddings : OrchestratorEnv :=
  { sample_env with geminiEmbedContent := fun _ _ => Except.ok [] }

/-- Gemini key present but the `google-genai` import fails, while a valid
OpenAI backend is configured and would work. -/
def sample_env_import_fails : OrchestratorEnv :=
  { sample_env with
    geminiImportOk := false,
    openaiKey := some "sk",
    openaiCreateEmbeddings := fun _ => Except.ok [[9]],
    openaiChatCreate := fun _ _ _ => Except.ok (some "an OpenAI answer") }

/-! # Theorems -/

/-! ## C7 — retrieval short-circuits -/

/-- C7: for every query string whose trimmed form is empty,
`retrieve_relevant_recipes` returns `Except.ok []` for every collection and
every embedding function (so neither the embedding function nor the index is
invoked); and for every collection reporting an entry count of 0 it returns
`Except.ok []` for every embedding function (so the result is fixed before
any embedding call). -/
theorem C7_retrieve_short_circuits :
    (∀ (collection : CollectionOps) (query : String) (embedding_fn : EmbedFn)
       (n : Nat), pyStrip query = "" →
       retrieve_relevant_recipes collection query embedding_fn n = Except.ok []) ∧
    (∀ (collection : CollectionOps) (query : String) (embedding_fn : EmbedFn)
       (n : Nat), collection.count = Except.ok 0 →
       retrieve_relevant_recipes collection query embedding_fn n = Except.ok []) := by
  constructor
  · intro c q ef n h
    unfold retrieve_relevant_recipes
    rw [if_pos h]
  · intro c q ef n h
    have h0 : collection_count_or_zero c = 0 := by
      unfold collection_count_or_zero
      rw [h]
    unfold retrieve_relevant_recipes
    by_cases hq : pyStrip q = ""
    · rw [if_pos hq]
    · rw [if_neg hq, if_pos h0]

/-- Witness for C7 at concrete inputs: a whitespace-only query against a
collection and embedding function that would raise if consulted. -/
theorem C7_witness :
    retrieve_relevant_recipes sample_coll_raising "   " sample_ef_raising 5 =
      Except.ok [] :=
  C7_retrieve_short_circuits.1 sample_coll_raising "   " sample_ef_raising 5
    (by decide)

/-! ## C8 — snippet truncation law -/

/-- Helper: a successful `hit_to_snippet` produces exactly
`make_snippet` of the stored document at the hit's index. -/
theorem hit_to_snippet_snippet {metas0 : List DocMeta} {docs0 : List String}
    {i : Nat} {doc_id : String} {s : RetrievedSnippet}
    (h : hit_to_snippet metas0 docs0 i doc_id = Except.ok s) :
    s.snippet = make_snippet (docs0.getD i "") := by
  unfold hit_to_snippet at h
  cases hr : resolve_recipe_id (metas0.getD i default) doc_id with
  | error e => rw [hr] at h; cases h
  | ok rid => rw [hr] at h; cases h; rfl

/-- Helper: every snippet produced by a successful run of the result loop is
`make_snippet` of the stored document at some hit index. -/
theorem retrieve_loop_snippets {metas0 : List DocMeta} {docs0 : List String} :
    ∀ {hits : List (Nat × String)} {snips : List RetrievedSnippet},
      retrieve_loop metas0 docs0 hits = Except.ok snips →
      ∀ s ∈ snips, ∃ i : Nat, s.snippet = make_snippet (docs0.getD i "") := by
  intro hits
  induction hits with
  | nil =>
    intro snips h s hs
    cases h
    cases hs
  | cons hd rest ih =>
    intro snips h s hs
    obtain ⟨i, doc_id⟩ := hd
    unfold retrieve_loop at h
    cases h1 : hit_to_snippet metas0 docs0 i doc_id with
    | error e => rw [h1] at h; cases h
    | ok s0 =>
      rw [h1] at h
      cases h2 : retrieve_loop metas0 docs0 rest with
      | error e => rw [h2] at h; cases h
      | ok out =>
        rw [h2] at h
        cases h
        cases hs with
        | head => exact ⟨i, hit_to_snippet_snippet h1⟩
        | tail _ hmem => exact ih h2 s hmem

/-- C8: snippet truncation law.  (1) For stored text longer than 300
characters the snippet is exactly the first 300 characters followed by the
ellipsis marker; (2) for text of at most 300 characters the snippet is the
text itself, with no marker; (3) every hit produced by the retrieval result
loop carries `make_snippet` of the stored document at its index; (4) hence
every snippet in a successful `retrieve_relevant_recipes` run is
`make_snippet` of some stored text. -/
theorem C8_truncation_law :
    (∀ doc : String, 300 < doc.length →
      make_snippet doc = pySlice doc 300 ++ "...") ∧
    (∀ doc : String, doc.length ≤ 300 → make_snippet doc = doc) ∧
    (∀ (metas0 : List DocMeta) (docs0 : List String)
       (hits : List (Nat × String)) (snips : List RetrievedSnippet),
       retrieve_loop metas0 docs0 hits = Except.ok snips →
       ∀ s ∈ snips, ∃ i : Nat, s.snippet = make_snippet (docs0.getD i "")) ∧
    (∀ (collection : CollectionOps) (query : String) (embedding_fn : EmbedFn)
       (n : Nat) (snips : List RetrievedSnippet),
       retrieve_relevant_recipes collection query embedding_fn n = Except.ok snips →
       ∀ s ∈ snips, ∃ doc : String, s.snippet = make_snippet doc) := by
  refine ⟨?_, ?_, ?_, ?_⟩
  · intro doc h
    unfold make_snippet
    rw [if_pos h]
  · intro doc h
    unfold make_snippet
    rw [if_neg (by omega)]
  · intro metas0 docs0 hits snips h s hs
    exact retrieve_loop_snippets h s hs
  · intro c q ef n snips h s hs
    unfold retrieve_relevant_recipes at h
    repeat' split at h
    all_goals
      first
        | (cases h; cases hs)
        | cases h
        | { obtain ⟨i, hi⟩ := retrieve_loop_snippets h s hs
            exact ⟨_, hi⟩ }

/-- Witness for C8 at a concrete input: a 301-character document is cut to
its first 300 characters plus the ellipsis marker. -/
theorem C8_witness :
    make_snippet (String.mk (List.replicate 301 'x')) =
      pySlice (String.mk (List.replicate 301 'x')) 300 ++ "..." :=
  C8_truncation_law.1 (String.mk (List.replicate 301 'x')) (by decide)

/-! ## C9 — fallback keyword search -/

/-- Helper: `distinctAux` only keeps elements of its input list. -/
theorem distinctAux_subset :
    ∀ (seen l : List Recipe), ∀ x ∈ distinctAux seen l, x ∈ l := by
  intro seen l
  induction l generalizing seen with
  | nil => intro x hx; cases hx
  | cons r rest ih =>
    intro x hx
    unfold distinctAux at hx
    by_cases hr : r ∈ seen
    · rw [if_pos hr] at hx
      exact List.mem_cons_of_mem r (ih seen x hx)
    · rw [if_neg hr] at hx
      cases hx with
      | head => exact List.mem_cons_self r rest
      | tail _ hmem => exact List.mem_cons_of_mem r (ih (r :: seen) x hmem)

/-- C9: the fallback keyword search (a) keeps at most the first 5 whitespace
tokens of length > 2; (b) with zero surviving tokens returns the fixed
instructional message and an empty id list, independently of the corpus
(which is therefore never queried); (c) with surviving tokens it returns the
ids of the case-insensitive any-token title/description/instructions
matches, deduplicated and capped at 5; when the filter matches nothing it
returns the fixed no-match message naming the query with an empty id list;
every returned id belongs to a matching corpus record. -/
theorem C9_fallback_keyword_search (user_message : String)
    (corpus : List Recipe) :
    ((fallback_tokens user_message).length ≤ 5 ∧
      ∀ w ∈ fallback_tokens user_message, 2 < w.length) ∧
    (fallback_tokens user_message = [] →
      fallback_answer user_message corpus = (fallback_prompt_msg, [])) ∧
    (fallback_tokens user_message ≠ [] →
      ((fallback_answer user_message corpus).2 =
        ((distinctAux [] (corpus.filter
            (fallback_matches (fallback_tokens user_message)))).take 5).map
          Recipe.pk ∧
       (corpus.filter (fallback_matches (fallback_tokens user_message)) = [] →
        fallback_answer user_message corpus =
          (fallback_no_match_msg user_message, [])) ∧
       (fallback_answer user_message corpus).2.length ≤ 5 ∧
       (∀ pk ∈ (fallback_answer user_message corpus).2, ∃ r ∈ corpus,
         r.pk = pk ∧
         fallback_matches (fallback_tokens user_message) r = true))) := by
  refine ⟨⟨?_, ?_⟩, ?_, ?_⟩
  · unfold fallback_tokens
    rw [List.length_take]
    exact min_le_left _ _
  · intro w hw
    unfold fallback_tokens at hw
    have hw2 := List.take_subset 5 _ hw
    have := (List.mem_filter.mp hw2).2
    exact of_decide_eq_true this
  · intro h
    unfold fallback_answer
    rw [h]
    rfl
  · intro h
    have hne : (fallback_tokens user_message).isEmpty = false :=
      List.isEmpty_eq_false.mpr h
    constructor
    · unfold fallback_answer
      dsimp only
      rw [hne]
      simp only [Bool.false_eq_true, if_false]
      by_cases hr : ((distinctAux [] (corpus.filter
          (fallback_matches (fallback_tokens user_message)))).take 5).isEmpty
      · rw [if_pos hr]
        rw [List.isEmpty_iff.mp hr]
        rfl
      · rw [if_neg hr]
    constructor
    · intro hfil
      unfold fallback_answer
      dsimp only
      rw [hne]
      simp only [Bool.false_eq_true, if_false]
      rw [hfil]
      rfl
    constructor
    · unfold fallback_answer
      dsimp only
      rw [hne]
      simp only [Bool.false_eq_true, if_false]
      by_cases hr : ((distinctAux [] (corpus.filter
          (fallback_matches (fallback_tokens user_message)))).take 5).isEmpty
      · rw [if_pos hr]
        simp
      · rw [if_neg hr]
        simp only [List.length_map, List.length_take]
        exact min_le_left _ _
    · intro pk hpk
      unfold fallback_answer at hpk
      dsimp only at hpk
      rw [hne] at hpk
      simp only [Bool.false_eq_true, if_false] at hpk
      by_cases hr : ((distinctAux [] (corpus.filter
          (fallback_matches (fallback_tokens user_message)))).take 5).isEmpty
      · rw [if_pos hr] at hpk
        cases hpk
      · rw [if_neg hr] at hpk
        obtain ⟨r, hrmem, hrpk⟩ := List.mem_map.mp hpk
        have hr1 := List.take_subset 5 _ hrmem
        have hr2 := distinctAux_subset [] _ r hr1
        have hr3 := List.mem_filter.mp hr2
        exact ⟨r, hr3.1, hrpk, hr3.2⟩

/-- Witness for C9 at concrete inputs: the message contains two usable
keywords, only the pizza record matches, and its id is returned. -/
theorem C9_witness :
    (fallback_answer "a pizza pls" [sample_pizza, sample_stew]).2 =
      ((distinctAux [] ([sample_pizza, sample_stew].filter
          (fallback_matches (fallback_tokens "a pizza pls")))).take 5).map
        Recipe.pk :=
  ((C9_fallback_keyword_search "a pizza pls" [sample_pizza, sample_stew]).2.2
    (by decide)).1

/-! ## C6 — embedding capability error behaviour -/

/-- C6 (counterexample to the claim as stated): with a Gemini key set, a
working import, valid input `["hello world"]`, and the backend returning a
successful-but-falsy embeddings result, the built embed function silently
returns one empty vector (not an error): the capability does return
zero/empty vectors for valid input. -/
theorem C6_counterexample :
    (build_gemini_embedding_fn sample_env_empty_embeddings
        "RETRIEVAL_DOCUMENT").map (fun f => f ["hello world"]) =
      some (Except.ok [[]]) := rfl

/-- C6 (amended): the Gemini embed function propagates transport errors to
the caller and passes non-empty API results through unchanged, but when the
API returns a successful empty result it silently returns one empty vector
per input text; the OpenAI embed function passes its API call through
unchanged (so transport errors surface); and each provider builder returns
`none` without raising when its credential is missing (or, for Gemini, when
the client library import fails). -/
theorem C6_embedding_amended :
    (∀ (env : OrchestratorEnv) (t : String) (texts : List String) (e : Err),
      env.geminiKey.isSome = true → env.geminiImportOk = true →
      env.geminiEmbedContent t texts = Except.error e →
      (build_gemini_embedding_fn env t).map (fun f => f texts) =
        some (Except.error e)) ∧
    (∀ (env : OrchestratorEnv) (t : String) (texts : List String)
       (vs : List (List Int)),
      env.geminiKey.isSome = true → env.geminiImportOk = true →
      env.geminiEmbedContent t texts = Except.ok vs → vs ≠ [] →
      (build_gemini_embedding_fn env t).map (fun f => f texts) =
        some (Except.ok vs)) ∧
    (∀ (env : OrchestratorEnv) (t : String) (texts : List String),
      env.geminiKey.isSome = true → env.geminiImportOk = true →
      env.geminiEmbedContent t texts = Except.ok [] →
      (build_gemini_embedding_fn env t).map (fun f => f texts) =
        some (Except.ok (List.replicate texts.length []))) ∧
    (∀ (env : OrchestratorEnv) (t : String),
      env.geminiKey = none → build_gemini_embedding_fn env t = none) ∧
    (∀ (env : OrchestratorEnv) (t : String),
      env.geminiImportOk = false → build_gemini_embedding_fn env t = none) ∧
    (∀ env : OrchestratorEnv,
      env.openaiKey = none → build_openai_embedding_fn env = none) ∧
    (∀ (env : OrchestratorEnv) (texts : List String),
      env.openaiKey.isSome = true →
      (build_openai_embedding_fn env).map (fun f => f texts) =
        some (env.openaiCreateEmbeddings texts)) := by
  refine ⟨?_, ?_, ?_, ?_, ?_, ?_, ?_⟩
  · intro env t texts e hk hi he
    obtain ⟨k, hkk⟩ := Option.isSome_iff_exists.mp hk
    simp [build_gemini_embedding_fn, hkk, hi, he]
  · intro env t texts vs hk hi he hvs
    obtain ⟨k, hkk⟩ := Option.isSome_iff_exists.mp hk
    simp [build_gemini_embedding_fn, hkk, hi, he, hvs]
  · intro env t texts hk hi he
    obtain ⟨k, hkk⟩ := Option.isSome_iff_exists.mp hk
    simp [build_gemini_embedding_fn, hkk, hi, he]
  · intro env t hk
    simp [build_gemini_embedding_fn, hk]
  · intro env t hi
    unfold build_gemini_embedding_fn
    cases env.geminiKey with
    | none => rfl
    | some k => simp [hi]
  · intro env hk
    simp [build_openai_embedding_fn, hk]
  · intro env texts hk
    obtain ⟨k, hkk⟩ := Option.isSome_iff_exists.mp hk
    simp [build_openai_embedding_fn, hkk]

/-- Witness for the amended C6 at concrete inputs: the empty-result carve-out
produces one empty vector per text without raising. -/
theorem C6_witness :
    (build_gemini_embedding_fn sample_env_empty_embeddings
        "RETRIEVAL_DOCUMENT").map (fun f => f ["a", "b"]) =
      some (Except.ok (List.replicate (["a", "b"] : List String).length [])) :=
  C6_embedding_amended.2.2.1 sample_env_empty_embeddings "RETRIEVAL_DOCUMENT"
    ["a", "b"] rfl rfl rfl

/-! ## C10 — provider selection ignores OpenAI when a Gemini key is set -/

/-- C10: when a Gemini API key is set but the Gemini client library cannot
be imported, the selected embedding function is `None`, the orchestrator
answers through fallback search with confidence 0.6, and the result is
unchanged under arbitrary replacement of the OpenAI credential and OpenAI
backends — the OpenAI backend is never consulted. -/
theorem C10_gemini_selection_ignores_openai (env : OrchestratorEnv)
    (user_message : String) (request : Option String)
    (hk : env.geminiKey.isSome = true) (hi : env.geminiImportOk = false) :
    orchestrator_embedding_fn env = none ∧
    get_rag_response env user_message request =
      Except.ok (fallback_result env user_message ((6 : ℚ)/10)) ∧
    (∀ (key2 : Option String)
       (ce2 : List String → Except Err (List (List Int)))
       (cc2 : String → List RetrievedSnippet → String → Except Err (Option String)),
      get_rag_response
          { env with openaiKey := key2, openaiCreateEmbeddings := ce2,
                     openaiChatCreate := cc2 } user_message request =
        get_rag_response env user_message request) := by
  obtain ⟨k, hkk⟩ := Option.isSome_iff_exists.mp hk
  have hfn : orchestrator_embedding_fn env = none := by
    unfold orchestrator_embedding_fn _use_gemini
    rw [hk]
    simp [build_gemini_embedding_fn, hkk, hi]
  have hmain : get_rag_response env user_message request =
      Except.ok (fallback_result env user_message ((6 : ℚ)/10)) := by
    unfold get_rag_response
    rw [hfn]
    rfl
  refine ⟨hfn, hmain, ?_⟩
  intro key2 ce2 cc2
  have hfn2 : orchestrator_embedding_fn
      { env with openaiKey := key2, openaiCreateEmbeddings := ce2,
                 openaiChatCreate := cc2 } = none := by
    unfold orchestrator_embedding_fn _use_gemini
    simp [build_gemini_embedding_fn, hkk, hi]
  rw [hmain]
  unfold get_rag_response
  rw [hfn2]
  rfl

/-- Witness for C10 at a concrete environment: Gemini key set, import
failing, a fully working OpenAI backend configured — fallback is used. -/
theorem C10_witness :
    orchestrator_embedding_fn sample_env_import_fails = none ∧
    get_rag_response sample_env_import_fails "pizza" none =
      Except.ok (fallback_result sample_env_import_fails "pizza" ((6 : ℚ)/10)) :=
  ⟨(C10_gemini_selection_ignores_openai sample_env_import_fails "pizza" none
      rfl rfl).1,
   (C10_gemini_selection_ignores_openai sample_env_import_fails "pizza" none
      rfl rfl).2.1⟩

/-! ## C1 — the orchestrator always returns a result -/

/-- Helper for C1: every branch of the orchestrator ends in `Except.ok`. -/
theorem get_rag_response_isOk (env : OrchestratorEnv) (user_message : String)
    (request : Option String) :
    (get_rag_response env user_message request).isOk = true := by
  unfold get_rag_response
  dsimp only
  repeat' split
  all_goals rfl

/-- C1: `get_rag_response` returns a `RagResult` (answer, retrieved docs,
confidence) for every environment — in particular for every combination of
raising embedding, index opening/counting, retrieval and generation backends
— and never propagates an error to the caller. -/
theorem C1_always_returns_result (env : OrchestratorEnv)
    (user_message : String) (request : Option String) :
    ∃ r : RagResult, get_rag_response env user_message request = Except.ok r := by
  have h := get_rag_response_isOk env user_message request
  cases hg : get_rag_response env user_message request with
  | ok r => exact ⟨r, rfl⟩
  | error e =>
    rw [hg] at h
    exact Bool.noConfusion h

/-! ## C2 — the confidence table -/

/-- Helper: once the RAG path is active (provider present, index directory
present, index opened, non-zero count), the orchestrator's result is the
result of the second try block, with a caught raise diverted to fallback at
confidence 0.5. -/
theorem get_rag_response_rag_path (env : OrchestratorEnv) (msg : String)
    (req : Option String) (coll : CollectionOps) (n : Nat)
    (hemb : (orchestrator_embedding_fn env).isSome = true)
    (hdir : env.persistDirIsDir = true)
    (hopen : env.openIndex = Except.ok coll)
    (hcount : coll.count = Except.ok n) (hn : n ≠ 0) :
    get_rag_response env msg req =
      match rag_attempt env coll msg (req.getD "") with
      | Except.ok res => Except.ok res
      | Except.error _ => Except.ok (fallback_result env msg ((5 : ℚ)/10)) := by
  unfold get_rag_response
  dsimp only
  rw [hemb, hdir, hopen]
  dsimp only
  rw [hcount]
  dsimp only
  rw [if_neg hn]
  simp

/-- Helper: the second try block with a non-empty retrieval and successful
generation yields confidence 0.9 and the retrieved doc references. -/
theorem rag_attempt_hit (env : OrchestratorEnv) (coll : CollectionOps)
    (msg base_url : String) (snips : List RetrievedSnippet) (ans : String)
    (hret : orch_retrieve env coll msg = Except.ok snips) (hne : snips ≠ [])
    (hgen : orchestrator_generate env msg snips base_url = Except.ok ans) :
    rag_attempt env coll msg base_url =
      Except.ok { answer := ans, retrieved_docs := snips.map snippet_doc_ref,
                  confidence := (9 : ℚ)/10 } := by
  unfold rag_attempt
  rw [hret]
  dsimp only
  rw [List.isEmpty_eq_false.mpr hne]
  simp only [Bool.false_eq_true, if_false]
  rw [hgen]

/-- Helper: the second try block with an empty retrieval and successful
generation yields confidence 0.6 and no doc references. -/
theorem rag_attempt_no_hit (env : OrchestratorEnv) (coll : CollectionOps)
    (msg base_url : String) (ans : String)
    (hret : orch_retrieve env coll msg = Except.ok [])
    (hgen : orchestrator_generate env msg [] base_url = Except.ok ans) :
    rag_attempt env coll msg base_url =
      Except.ok { answer := ans, retrieved_docs := [],
                  confidence := (6 : ℚ)/10 } := by
  unfold rag_attempt
  rw [hret]
  dsimp only
  simp only [List.isEmpty_nil, eq_self_iff_true, if_true]
  rw [hgen]

/-- C2: the four-path confidence table of the orchestrator.
(1) RAG path with at least one retrieved snippet and successful generation:
confidence 0.9; (2) RAG path with an empty retrieval and successful
generation: confidence 0.6; (3) no embedding provider or no index directory
(no exception involved): fallback with confidence 0.6; (4) a caught
exception mid-pipeline — the second try block (retrieval or generation)
raising — diverts to fallback with confidence 0.5. -/
theorem C2_confidence_table :
    (∀ (env : OrchestratorEnv) (msg : String) (req : Option String)
       (coll : CollectionOps) (n : Nat) (snips : List RetrievedSnippet)
       (ans : String),
      (orchestrator_embedding_fn env).isSome = true →
      env.persistDirIsDir = true → env.openIndex = Except.ok coll →
      coll.count = Except.ok n → n ≠ 0 →
      orch_retrieve env coll msg = Except.ok snips → snips ≠ [] →
      orchestrator_generate env msg snips (req.getD "") = Except.ok ans →
      get_rag_response env msg req =
        Except.ok { answer := ans,
                    retrieved_docs := snips.map snippet_doc_ref,
                    confidence := (9 : ℚ)/10 }) ∧
    (∀ (env : OrchestratorEnv) (msg : String) (req : Option String)
       (coll : CollectionOps) (n : Nat) (ans : String),
      (orchestrator_embedding_fn env).isSome = true →
      env.persistDirIsDir = true → env.openIndex = Except.ok coll →
      coll.count = Except.ok n → n ≠ 0 →
      orch_retrieve env coll msg = Except.ok [] →
      orchestrator_generate env msg [] (req.getD "") = Except.ok ans →
      get_rag_response env msg req =
        Except.ok { answer := ans, retrieved_docs := [],
                    confidence := (6 : ℚ)/10 }) ∧
    (∀ (env : OrchestratorEnv) (msg : String) (req : Option String),
      (orchestrator_embedding_fn env = none ∨ env.persistDirIsDir = false) →
      get_rag_response env msg req =
        Except.ok (fallback_result env msg ((6 : ℚ)/10))) ∧
    (∀ (env : OrchestratorEnv) (msg : String) (req : Option String)
       (coll : CollectionOps) (n : Nat) (e : Err),
      (orchestrator_embedding_fn env).isSome = true →
      env.persistDirIsDir = true → env.openIndex = Except.ok coll →
      coll.count = Except.ok n → n ≠ 0 →
      rag_attempt env coll msg (req.getD "") = Except.error e →
      get_rag_response env msg req =
        Except.ok (fallback_result env msg ((5 : ℚ)/10))) := by
  refine ⟨?_, ?_, ?_, ?_⟩
  · intro env msg req coll n snips ans hemb hdir hopen hcount hn hret hne hgen
    rw [get_rag_response_rag_path env msg req coll n hemb hdir hopen hcount hn]
    rw [rag_attempt_hit env coll msg (req.getD "") snips ans hret hne hgen]
  · intro env msg req coll n ans hemb hdir hopen hcount hn hret hgen
    rw [get_rag_response_rag_path env msg req coll n hemb hdir hopen hcount hn]
    rw [rag_attempt_no_hit env coll msg (req.getD "") ans hret hgen]
  · intro env msg req h
    unfold get_rag_response
    dsimp only
    cases h with
    | inl h => rw [h]; rfl
    | inr h => rw [h]; simp
  · intro env msg req coll n e hemb hdir hopen hcount hn ha
    rw [get_rag_response_rag_path env msg req coll n hemb hdir hopen hcount hn]
    rw [ha]

/-- Witness for C2 at a concrete healthy environment: one hit, successful
generation, confidence 0.9. -/
theorem C2_witness :
    get_rag_response sample_env "pizza" none =
      Except.ok { answer := "Try the Margherita Pizza!",
                  retrieved_docs :=
                    ([{ recipe_id := 1, title := "Margherita Pizza",
                        snippet := "Margherita doc text" }] :
                      List RetrievedSnippet).map snippet_doc_ref,
                  confidence := (9 : ℚ)/10 } :=
  C2_confidence_table.1 sample_env "pizza" none sample_coll 1
    [{ recipe_id := 1, title := "Margherita Pizza",
       snippet := "Margherita doc text" }]
    "Try the Margherita Pizza!" rfl rfl rfl rfl (by decide) rfl
    (by decide) rfl

/-! ## C3 — index open/count failure lands at confidence 0.6, not 0.5 -/

/-- C3: evaluating the orchestrator where opening the persisted index raises
(`sample_env_open_fails`) and where counting raises
(`sample_env_count_fails`): both runs return confidence 0.6 — the
code takes the generic no-RAG fallback branch there, not the claimed
0.5 caught-exception branch. -/
theorem C3_open_count_failure_confidence :
    Except.map RagResult.confidence
        (get_rag_response sample_env_open_fails "tomato pizza" none) =
      Except.ok ((6 : ℚ)/10) ∧
    Except.map RagResult.confidence
        (get_rag_response sample_env_count_fails "tomato pizza" none) =
      Except.ok ((6 : ℚ)/10) ∧
    ((6 : ℚ)/10) ≠ ((5 : ℚ)/10) := by
  refine ⟨rfl, rfl, by norm_num⟩

/-! ## C4 — indexing is an idempotent upsert

Lemmas about `upsert1` and its fold over keyed entries. -/

/-- Helper: with duplicate-free keys, a key determines its pair. -/
theorem storeKeys_unique {s : IndexStore} (h : (storeKeys s).Nodup)
    {p q : String × IndexedEntry} (hp : p ∈ s) (hq : q ∈ s)
    (hpq : p.1 = q.1) : p = q :=
  List.inj_on_of_nodup_map h hp hq hpq

/-- Helper: the upserted pair is present after `upsert1`. -/
theorem upsert1_mem_self (s : IndexStore) (id : String) (e : IndexedEntry) :
    (id, e) ∈ upsert1 s id e := by
  unfold upsert1
  by_cases h : s.any (fun p => p.1 == id) = true
  · rw [if_pos h]
    obtain ⟨p, hp, hpe⟩ := List.any_eq_true.mp h
    have h2 := List.mem_map_of_mem (fun p => if p.1 == id then (id, e) else p) hp
    simp only [hpe, if_true] at h2
    exact h2
  · rw [if_neg h]
    exact List.mem_append.mpr (Or.inr (List.mem_singleton.mpr rfl))

/-- Helper: `upsert1` on another key keeps an existing pair. -/
theorem upsert1_mem_other {s : IndexStore} {id id' : String}
    {e e' : IndexedEntry} (hne : id ≠ id') (hmem : (id, e) ∈ s) :
    (id, e) ∈ upsert1 s id' e' := by
  unfold upsert1
  by_cases h : s.any (fun p => p.1 == id') = true
  · rw [if_pos h]
    have h2 := List.mem_map_of_mem (fun p => if p.1 == id' then (id', e') else p) hmem
    have hc : ((id, e).1 == id') = false := beq_eq_false_iff_ne.mpr hne
    simp only [hc, Bool.false_eq_true, if_false] at h2
    exact h2
  · rw [if_neg h]
    exact List.mem_append.mpr (Or.inl hmem)

/-- Helper: upserting a pair already present in a duplicate-free store is the
identity. -/
theorem upsert1_self_eq {s : IndexStore} {id : String} {e : IndexedEntry}
    (hnd : (storeKeys s).Nodup) (hmem : (id, e) ∈ s) : upsert1 s id e = s := by
  unfold upsert1
  have hany : s.any (fun p => p.1 == id) = true :=
    List.any_eq_true.mpr ⟨(id, e), hmem, by simp⟩
  rw [if_pos hany]
  have hcongr : ∀ p ∈ s, (if p.1 == id then (id, e) else p) = p := by
    intro p hp
    by_cases hpi : p.1 = id
    · have hpe : p = (id, e) := storeKeys_unique hnd hp hmem hpi
      rw [if_pos (by simp [hpi]), hpe]
    · rw [if_neg (by simp [hpi])]
  rw [List.map_congr_left hcongr, List.map_id']

/-- Helper: `upsert1` preserves duplicate-freedom of the keys. -/
theorem upsert1_keys_nodup {s : IndexStore} {id : String} {e : IndexedEntry}
    (h : (storeKeys s).Nodup) : (storeKeys (upsert1 s id e)).Nodup := by
  unfold upsert1
  by_cases hany : s.any (fun p => p.1 == id) = true
  · rw [if_pos hany]
    have hkeys : storeKeys (s.map (fun p => if p.1 == id then (id, e) else p)) =
        storeKeys s := by
      unfold storeKeys
      rw [List.map_map]
      apply List.map_congr_left
      intro p _
      by_cases hpi : (p.1 == id) = true
      · have := eq_of_beq hpi
        simp only [Function.comp_apply, hpi, if_true]
        exact this.symm
      · simp only [Function.comp_apply, hpi, Bool.false_eq_true, if_false]
    rw [hkeys]
    exact h
  · rw [if_neg hany]
    have hany2 : s.any (fun p => p.1 == id) = false := by
      revert hany
      cases s.any (fun p => p.1 == id) <;> simp
    have hnotin : id ∉ storeKeys s := by
      intro hmem
      obtain ⟨p, hp, hp1⟩ := List.mem_map.mp hmem
      have := List.any_eq_false.mp hany2 p hp
      exact this (by simp [hp1])
    unfold storeKeys
    rw [List.map_append, List.nodup_append]
    refine ⟨h, by simp, ?_⟩
    intro a ha hb
    simp only [List.map_cons, List.map_nil, List.mem_singleton] at hb
    subst hb
    exact hnotin ha

/-- Helper: a pair whose key is not touched by any entry survives the whole
fold of upserts. -/
theorem fold_upsert_mem_of_not_key :
    ∀ (entries : List (String × IndexedEntry)) (s : IndexStore) (id : String)
      (e : IndexedEntry), id ∉ entries.map Prod.fst → (id, e) ∈ s →
      (id, e) ∈ entries.foldl (fun s q => upsert1 s q.1 q.2) s := by
  intro entries
  induction entries with
  | nil => intro s id e _ hm; simpa using hm
  | cons q rest ih =>
    intro s id e hid hm
    rw [List.foldl_cons]
    rw [List.map_cons] at hid
    have h1 : id ≠ q.1 := fun hc => hid (hc ▸ List.mem_cons_self _ _)
    have h2 : id ∉ rest.map Prod.fst := fun hc => hid (List.mem_cons_of_mem _ hc)
    exact ih _ id e h2 (upsert1_mem_other h1 hm)

/-- Helper: with duplicate-free entry keys, every entry is present in the
result of the fold of upserts. -/
theorem fold_upsert_mem :
    ∀ (entries : List (String × IndexedEntry)) (s : IndexStore),
      (entries.map Prod.fst).Nodup →
      ∀ p ∈ entries, p ∈ entries.foldl (fun s q => upsert1 s q.1 q.2) s := by
  intro entries
  induction entries with
  | nil => intro s _ p hp; cases hp
  | cons q rest ih =>
    intro s h p hp
    rw [List.foldl_cons]
    rw [List.map_cons] at h
    have hq1 : q.1 ∉ rest.map Prod.fst := (List.nodup_cons.mp h).1
    have hrest : (rest.map Prod.fst).Nodup := (List.nodup_cons.mp h).2
    cases hp with
    | head =>
      have := fold_upsert_mem_of_not_key rest (upsert1 s q.1 q.2) q.1 q.2 hq1
        (upsert1_mem_self s q.1 q.2)
      rwa [Prod.mk.eta] at this
    | tail _ hmem => exact ih (upsert1 s q.1 q.2) hrest p hmem

/-- Helper: the fold of upserts preserves duplicate-free keys. -/
theorem fold_upsert_keys_nodup :
    ∀ (entries : List (String × IndexedEntry)) (s : IndexStore),
      (storeKeys s).Nodup →
      (storeKeys (entries.foldl (fun s q => upsert1 s q.1 q.2) s)).Nodup := by
  intro entries
  induction entries with
  | nil => intro s h; exact h
  | cons q rest ih =>
    intro s h
    rw [List.foldl_cons]
    exact ih _ (upsert1_keys_nodup h)

/-- Helper: upserting entries that are all already present in a
duplicate-free store changes nothing. -/
theorem fold_upsert_fixed :
    ∀ (entries : List (String × IndexedEntry)) (s : IndexStore),
      (storeKeys s).Nodup → (∀ p ∈ entries, p ∈ s) →
      entries.foldl (fun s q => upsert1 s q.1 q.2) s = s := by
  intro entries
  induction entries with
  | nil => intro s _ _; rfl
  | cons q rest ih =>
    intro s hnd hall
    rw [List.foldl_cons]
    have hq : (q.1, q.2) ∈ s := by
      rw [Prod.mk.eta]
      exact hall q (List.mem_cons_self _ _)
    rw [upsert1_self_eq hnd hq]
    exact ih s hnd (fun p hp => hall p (List.mem_cons_of_mem _ hp))

/-- Helper: in a duplicate-free store a present key is stored exactly once. -/
theorem count_key_of_nodup :
    ∀ {s : IndexStore}, (storeKeys s).Nodup → ∀ {id : String},
      id ∈ storeKeys s → (s.filter (fun p => p.1 == id)).length = 1 := by
  intro s
  induction s with
  | nil => intro _ id hmem; cases hmem
  | cons q rest ih =>
    intro hnd id hmem
    have hq1 : q.1 ∉ storeKeys rest := (List.nodup_cons.mp hnd).1
    have hrest : (storeKeys rest).Nodup := (List.nodup_cons.mp hnd).2
    rw [List.filter_cons]
    by_cases hiq : (q.1 == id) = true
    · rw [if_pos hiq]
      have hqid : q.1 = id := eq_of_beq hiq
      have hnil : rest.filter (fun p => p.1 == id) = [] := by
        rw [List.filter_eq_nil_iff]
        intro p hp hpe
        exact hq1 (hqid ▸ eq_of_beq hpe ▸ List.mem_map_of_mem Prod.fst hp)
      rw [hnil]
      rfl
    · rw [if_neg hiq]
      have hid : id ∈ storeKeys rest := by
        cases hmem with
        | head => exact absurd (by simp) hiq
        | tail _ hmem2 => exact hmem2
      exact ih hrest hid

/-- Helper: with aligned lengths, the keys of the zipped entries are exactly
the ids. -/
theorem zipEntries_fst {ids : List String} {embs : List (List Int)}
    {docs : List String} {metas : List IndexedDocMeta}
    (h1 : embs.length = ids.length) (h2 : docs.length = ids.length)
    (h3 : metas.length = ids.length) :
    (zipEntries ids embs docs metas).map Prod.fst = ids := by
  have e1 : (zipEntries ids embs docs metas).map Prod.fst =
      ((ids.zip embs).zip (docs.zip metas)).map (fun x => x.1.1) := by
    unfold zipEntries
    rw [List.map_map]
    rfl
  have e2 : ((ids.zip embs).zip (docs.zip metas)).map
        (fun (x : (String × List Int) × (String × IndexedDocMeta)) => x.1.1) =
      List.map Prod.fst (List.map Prod.fst ((ids.zip embs).zip (docs.zip metas))) := by
    rw [List.map_map]
    rfl
  rw [e1, e2]
  rw [List.map_fst_zip _ _ (by simp [List.length_zip, h1, h2, h3])]
  rw [List.map_fst_zip _ _ (le_of_eq h1.symm)]

/-- C4: batch indexing is an idempotent upsert keyed by stringified record
id.  For a corpus with distinct ids, a duplicate-free prior store and a
successful batch embedding call returning one vector per document: the first
run succeeds returning the corpus size, a second run over the resulting
store returns the very same store (overwriting by id, not appending) and the
same count, and the final store holds exactly one entry per corpus record
— hence any fixed query against the index sees identical contents after
either run. -/
theorem C4_indexing_idempotent_upsert (store : IndexStore)
    (embedding_fn : EmbedFn) (recipes : List Recipe)
    (embeddings : List (List Int))
    (hstore : (storeKeys store).Nodup)
    (hids : (recipes.map (fun r => toString r.pk)).Nodup)
    (hok : embedding_fn (recipes.map _get_recipe_document) =
      Except.ok embeddings)
    (hlen : embeddings.length = recipes.length) :
    ∃ s1 : IndexStore,
      index_recipes_into_chroma store embedding_fn recipes =
        Except.ok (s1, recipes.length) ∧
      index_recipes_into_chroma s1 embedding_fn recipes =
        Except.ok (s1, recipes.length) ∧
      ∀ r ∈ recipes,
        (s1.filter (fun p => p.1 == toString r.pk)).length = 1 := by
  cases hre : recipes.isEmpty
  case true =>
    have hnil : recipes = [] := List.isEmpty_iff.mp hre
    subst hnil
    exact ⟨store, rfl, rfl, by intro r hr; cases hr⟩
  case false =>
    have hkeys : (zipEntries (recipes.map (fun r => toString r.pk)) embeddings
        (recipes.map _get_recipe_document)
        (recipes.map (fun r =>
          ({ recipe_id := r.pk, title := pySlice r.title 200 } :
            IndexedDocMeta)))).map Prod.fst =
        recipes.map (fun r => toString r.pk) :=
      zipEntries_fst (by simp [hlen]) (by simp) (by simp)
    have hnodup_entries := hkeys ▸ hids
    refine ⟨chroma_add store (recipes.map (fun r => toString r.pk)) embeddings
      (recipes.map _get_recipe_document)
      (recipes.map (fun r =>
        ({ recipe_id := r.pk, title := pySlice r.title 200 } :
          IndexedDocMeta))), ?_, ?_, ?_⟩
    · unfold index_recipes_into_chroma
      rw [hre]
      simp only [Bool.false_eq_true, if_false]
      rw [hok]
    · unfold index_recipes_into_chroma
      rw [hre]
      simp only [Bool.false_eq_true, if_false]
      rw [hok]
      unfold chroma_add
      dsimp only
      rw [fold_upsert_fixed _ _
        (fold_upsert_keys_nodup _ store hstore)
        (fold_upsert_mem _ store hnodup_entries)]
    · intro r hr
      have hnodup_s1 : (storeKeys (chroma_add store
          (recipes.map (fun r => toString r.pk)) embeddings
          (recipes.map _get_recipe_document)
          (recipes.map (fun r =>
            ({ recipe_id := r.pk, title := pySlice r.title 200 } :
              IndexedDocMeta))))).Nodup :=
        fold_upsert_keys_nodup _ store hstore
      have hid_mem : toString r.pk ∈ (zipEntries
          (recipes.map (fun r => toString r.pk)) embeddings
          (recipes.map _get_recipe_document)
          (recipes.map (fun r =>
            ({ recipe_id := r.pk, title := pySlice r.title 200 } :
              IndexedDocMeta)))).map Prod.fst := by
        rw [hkeys]
        exact List.mem_map_of_mem _ hr
      obtain ⟨p, hp, hp1⟩ := List.mem_map.mp hid_mem
      have hps1 := fold_upsert_mem _ store hnodup_entries p hp
      have hkey : toString r.pk ∈ storeKeys (chroma_add store
          (recipes.map (fun r => toString r.pk)) embeddings
          (recipes.map _get_recipe_document)
          (recipes.map (fun r =>
            ({ recipe_id := r.pk, title := pySlice r.title 200 } :
              IndexedDocMeta)))) := by
        rw [← hp1]
        exact List.mem_map_of_mem _ hps1
      exact count_key_of_nodup hnodup_s1 hkey

/-- Witness for C4 at a concrete two-recipe corpus: both runs succeed with
count 2 over the same store, which holds one entry per record. -/
theorem C4_witness :
    ∃ s1 : IndexStore,
      index_recipes_into_chroma [] sample_ef_const
          [sample_pizza, sample_stew] =
        Except.ok (s1, ([sample_pizza, sample_stew] : List Recipe).length) ∧
      index_recipes_into_chroma s1 sample_ef_const
          [sample_pizza, sample_stew] =
        Except.ok (s1, ([sample_pizza, sample_stew] : List Recipe).length) ∧
      ∀ r ∈ ([sample_pizza, sample_stew] : List Recipe),
        (s1.filter (fun p => p.1 == toString r.pk)).length = 1 :=
  C4_indexing_idempotent_upsert [] sample_ef_const [sample_pizza, sample_stew]
    [[1], [1]] (by decide) (by decide) rfl rfl

/-! ## C5 — a failing batch embedding aborts indexing -/

/-- C5 (counterexample to the claim as stated): on a non-empty corpus whose
batch embedding call raises, `index_recipes_into_chroma` does not report a
count of 0 — the exception propagates to the caller instead. -/
theorem C5_counterexample :
    index_recipes_into_chroma [] sample_ef_boom [sample_pizza] =
      Except.error "boom" ∧
    index_recipes_into_chroma [] sample_ef_boom [sample_pizza] ≠
      Except.ok ([], 0) := by
  refine ⟨rfl, ?_⟩
  intro h
  exact Except.noConfusion h

/-- C5 (amended): when the single batch embedding call fails on a non-empty
corpus, the whole index operation aborts by propagating that error — no
count (of 0 or otherwise) is returned and no store is produced, so the
previously stored index state is left intact (`collection.add` is never
reached). -/
theorem C5_abort_propagates (store : IndexStore) (embedding_fn : EmbedFn)
    (recipes : List Recipe) (e : Err) (hne : recipes ≠ [])
    (herr : embedding_fn (recipes.map _get_recipe_document) =
      Except.error e) :
    index_recipes_into_chroma store embedding_fn recipes = Except.error e ∧
    ∀ (s2 : IndexStore) (n : Nat),
      index_recipes_into_chroma store embedding_fn recipes ≠
        Except.ok (s2, n) := by
  have hmain : index_recipes_into_chroma store embedding_fn recipes =
      Except.error e := by
    unfold index_recipes_into_chroma
    rw [List.isEmpty_eq_false.mpr hne]
    simp only [Bool.false_eq_true, if_false]
    rw [herr]
  refine ⟨hmain, ?_⟩
  intro s2 n h
  rw [hmain] at h
  exact Except.noConfusion h

/-- Witness for the amended C5 at a concrete corpus and raising embedder. -/
theorem C5_witness :
    index_recipes_into_chroma [] sample_ef_boom [sample_pizza, sample_stew] =
      Except.error "boom" :=
  (C5_abort_propagates [] sample_ef_boom [sample_pizza, sample_stew] "boom"
    (List.cons_ne_nil _ _) rfl).1

end RecipeRag
